import Mathlib

/-!
Verification development for the `my-osv-report` repository (an incremental
OSV vulnerability fetcher and differential reporter written in Go).

The Go source is shallowly embedded: pure functions become Lean functions,
SQLite tables become lists of row structures, stateful operations become
functions on an explicit store state, and Go `float64` arithmetic is
embedded as exact rational arithmetic (`ℚ`).  Timestamps (`time.Time`)
are embedded as a pair of an integer second count and a nanosecond count,
mirroring Go's internal representation of an instant.
-/

namespace OsvSpec

/-! ## Severity parser (`internal/severity/cvss.go`) -/

/-- Weight table for the Attack Vector metric, from `computeCVSS3BaseScore`. -/
def avWeights : List (String × ℚ) :=
  [("N", 85/100), ("A", 62/100), ("L", 55/100), ("P", 2/10)]

/-- Weight table for the Attack Complexity metric, from `computeCVSS3BaseScore`. -/
def acWeights : List (String × ℚ) :=
  [("L", 77/100), ("H", 44/100)]

/-- Weight table for the User Interaction metric, from `computeCVSS3BaseScore`. -/
def uiWeights : List (String × ℚ) :=
  [("N", 85/100), ("R", 62/100)]

/-- Weight table for the C/I/A impact metrics, from `computeCVSS3BaseScore`. -/
def ciaWeights : List (String × ℚ) :=
  [("N", 0), ("L", 22/100), ("H", 56/100)]

/-- Privileges Required weights when scope is unchanged, from `computeCVSS3BaseScore`. -/
def prWeightsUnchanged : List (String × ℚ) :=
  [("N", 85/100), ("L", 62/100), ("H", 27/100)]

/-- Privileges Required weights when scope is changed, from `computeCVSS3BaseScore`. -/
def prWeightsChanged : List (String × ℚ) :=
  [("N", 85/100), ("L", 68/100), ("H", 5/10)]

/-- Function `roundUp1Decimal` from `cvss.go`: `math.Ceil(val*10) / 10`. -/
def roundUp1Decimal (val : ℚ) : ℚ := (⌈val * 10⌉ : ℚ) / 10

/-- Go `strings.Split` on a single-character separator, on the character list of
the string (structural recursion so that the kernel can evaluate it). -/
def splitOnChar (sep : Char) : List Char → List (List Char)
  | [] => [[]]
  | c :: rest =>
    let r := splitOnChar sep rest
    if c = sep then [] :: r
    else
      match r with
      | [] => [[c]]
      | h :: t => (c :: h) :: t

/-- Split a character list at the first occurrence of `sep`; `none` when `sep`
does not occur. -/
def breakAtChar (sep : Char) : List Char → Option (List Char × List Char)
  | [] => none
  | c :: rest =>
    if c = sep then some ([], rest)
    else (breakAtChar sep rest).map (fun p => (c :: p.1, p.2))

/-- Go `strings.SplitN(part, ":", 2)` followed by the length-2 check in
`computeCVSS3BaseScore`: split a metric token at its first colon, failing when
the token has no colon. -/
def splitMetric (part : List Char) : Option (String × String) :=
  (breakAtChar ':' part).map (fun p => (String.mk p.1, String.mk p.2))

/-- Insertion into the Go `metrics` map: a later assignment to the same key
overwrites the earlier one. -/
def upsertMetric : List (String × String) → String → String → List (String × String)
  | [], k, v => [(k, v)]
  | (k', v') :: rest, k, v =>
    if k' = k then (k, v) :: rest else (k', v') :: upsertMetric rest k v

/-- The metric-map construction loop of `computeCVSS3BaseScore`: tokens without
a colon are skipped, the rest populate the map. -/
def parseMetrics (parts : List (List Char)) : List (String × String) :=
  parts.foldl (fun m part =>
    match splitMetric part with
    | none => m
    | some (k, v) => upsertMetric m k v) []

/-- The `required` metric list of `computeCVSS3BaseScore`. -/
def requiredMetrics : List String := ["AV", "AC", "PR", "UI", "S", "C", "I", "A"]

/-- Go map indexing `metrics[key]` (missing key yields the zero string). -/
def metricVal (metrics : List (String × String)) (key : String) : String :=
  (metrics.lookup key).getD ""

/-- Go-map `weights[value], ok` lookup-with-check pattern of
`computeCVSS3BaseScore`: a missing table entry is an invalid-metric error. -/
def lookupWeight (table : List (String × ℚ)) (key : String) (errMsg : String) :
    Except String ℚ :=
  match table.lookup key with
  | none => .error errMsg
  | some w => .ok w

/-- The body of `computeCVSS3BaseScore` after the metric map has been built:
required-metric check, weight lookups (in the Go order, each failing with
its invalid-metric error), and the base-score formula. -/
def computeFromMetrics (metrics : List (String × String)) : Except String ℚ :=
  match requiredMetrics.find? (fun key => (metrics.lookup key).isNone) with
  | some key => .error ("missing metric " ++ key)
  | none => do
    let scopeChanged := metricVal metrics "S" == "C"
    let av ← lookupWeight avWeights (metricVal metrics "AV") "invalid AV metric"
    let ac ← lookupWeight acWeights (metricVal metrics "AC") "invalid AC metric"
    let pr ← lookupWeight (if scopeChanged then prWeightsChanged else prWeightsUnchanged)
      (metricVal metrics "PR") "invalid PR metric"
    let ui ← lookupWeight uiWeights (metricVal metrics "UI") "invalid UI metric"
    let conf ← lookupWeight ciaWeights (metricVal metrics "C") "invalid C metric"
    let integ ← lookupWeight ciaWeights (metricVal metrics "I") "invalid I metric"
    let avail ← lookupWeight ciaWeights (metricVal metrics "A") "invalid A metric"
    let exploitability := 822/100 * av * ac * pr * ui
    let impactSubscore := 1 - (1 - conf) * (1 - integ) * (1 - avail)
    if impactSubscore ≤ 0 then pure 0
    else if scopeChanged then
      let impact := 752/100 * (impactSubscore - 29/1000)
        - 325/100 * (impactSubscore - 2/100) ^ 15
      pure (roundUp1Decimal (min (108/100 * (max impact 0 + exploitability)) 10))
    else
      pure (roundUp1Decimal (min (642/100 * impactSubscore + exploitability) 10))

/-- Go `strings.HasPrefix`, as a prefix test on character lists. -/
def strStartsWith (s : String) (pre : String) : Bool :=
  pre.toList.isPrefixOf s.toList

/-- Function `computeCVSS3BaseScore` from `cvss.go`: split the vector on `/`, check the
`CVSS:3.` version prefix, then evaluate the metric map. -/
def computeCVSS3BaseScore (vector : String) : Except String ℚ :=
  match splitOnChar '/' vector.toList with
  | [] => .error "invalid CVSS vector"
  | [_] => .error "invalid CVSS vector"
  | p0 :: rest =>
    if strStartsWith (String.mk p0) "CVSS:3." then computeFromMetrics (parseMetrics rest)
    else .error "unsupported CVSS version"

/-- Modelled from the library: `strconv.ParseFloat` on plain decimal literals
(optional sign, digits with at most one decimal point).  Exponent, hex-float,
`Inf`/`NaN` and underscore forms are omitted; no claim depends on them. -/
def parseDecimal (s : String) : Option ℚ :=
  let chars := s.toList
  let signed : ℚ × List Char :=
    match chars with
    | '+' :: r => (1, r)
    | '-' :: r => (-1, r)
    | r => (1, r)
  let sign := signed.1
  let rest := signed.2
  let intPart := rest.takeWhile Char.isDigit
  let rest2 := rest.drop intPart.length
  let digitsToNat : List Char → ℕ :=
    fun l => l.foldl (fun acc c => acc * 10 + (c.toNat - 48)) 0
  match rest2 with
  | [] =>
    if intPart.isEmpty then none
    else some (sign * (digitsToNat intPart : ℚ))
  | '.' :: fracPart =>
    if fracPart.all Char.isDigit ∧ ¬(intPart.isEmpty ∧ fracPart.isEmpty) then
      some (sign * ((digitsToNat intPart : ℚ)
        + (digitsToNat fracPart : ℚ) / (10 ^ fracPart.length : ℚ)))
    else none
  | _ => none

/-- Function `ParseVector` from `cvss.go`: a `CVSS:3.` prefix dispatches to the v3
formula, anything else is parsed as a plain decimal number. -/
def ParseVector (vector : String) : Except String ℚ :=
  if strStartsWith vector "CVSS:3." then computeCVSS3BaseScore vector
  else
    match parseDecimal vector with
    | some q => .ok q
    | none => .error "invalid number"

/-! ### The official CVSS v3.1 base-score formula, stated from the claim's
formulas over abstract metric values (used as the specification side of the
refinement for claim C4). -/

/-- Attack Vector metric values. -/
inductive AVMetric | N | A | L | P
deriving DecidableEq, Fintype

/-- Attack Complexity metric values. -/
inductive ACMetric | L | H
deriving DecidableEq, Fintype

/-- Privileges Required metric values. -/
inductive PRMetric | N | L | H
deriving DecidableEq, Fintype

/-- User Interaction metric values. -/
inductive UIMetric | N | R
deriving DecidableEq, Fintype

/-- Scope metric values. -/
inductive SMetric | U | C
deriving DecidableEq, Fintype

/-- Confidentiality/Integrity/Availability impact metric values. -/
inductive CIAMetric | N | L | H
deriving DecidableEq, Fintype

/-- Vector-string letter for an Attack Vector value. -/
def AVMetric.code : AVMetric → String
  | .N => "N" | .A => "A" | .L => "L" | .P => "P"

/-- Vector-string letter for an Attack Complexity value. -/
def ACMetric.code : ACMetric → String
  | .L => "L" | .H => "H"

/-- Vector-string letter for a Privileges Required value. -/
def PRMetric.code : PRMetric → String
  | .N => "N" | .L => "L" | .H => "H"

/-- Vector-string letter for a User Interaction value. -/
def UIMetric.code : UIMetric → String
  | .N => "N" | .R => "R"

/-- Vector-string letter for a Scope value. -/
def SMetric.code : SMetric → String
  | .U => "U" | .C => "C"

/-- Vector-string letter for a C/I/A impact value. -/
def CIAMetric.code : CIAMetric → String
  | .N => "N" | .L => "L" | .H => "H"

/-- Official Attack Vector weights: N 0.85, A 0.62, L 0.55, P 0.20. -/
def AVMetric.weight : AVMetric → ℚ
  | .N => 85/100 | .A => 62/100 | .L => 55/100 | .P => 2/10

/-- Official Attack Complexity weights: L 0.77, H 0.44. -/
def ACMetric.weight : ACMetric → ℚ
  | .L => 77/100 | .H => 44/100

/-- Official Privileges Required weights, which depend on the Scope value:
S=U gives N 0.85, L 0.62, H 0.27; S=C gives N 0.85, L 0.68, H 0.50. -/
def PRMetric.weight : PRMetric → SMetric → ℚ
  | .N, _ => 85/100
  | .L, .U => 62/100
  | .L, .C => 68/100
  | .H, .U => 27/100
  | .H, .C => 5/10

/-- Official User Interaction weights: N 0.85, R 0.62. -/
def UIMetric.weight : UIMetric → ℚ
  | .N => 85/100 | .R => 62/100

/-- Official C/I/A impact weights: N 0.0, L 0.22, H 0.56. -/
def CIAMetric.weight : CIAMetric → ℚ
  | .N => 0 | .L => 22/100 | .H => 56/100

/-- The canonical CVSS v3.1 vector string for a full assignment of the eight
required base metrics. -/
def mkVector (av : AVMetric) (ac : ACMetric) (pr : PRMetric) (ui : UIMetric)
    (s : SMetric) (c i a : CIAMetric) : String :=
  "CVSS:3.1/AV:" ++ av.code ++ "/AC:" ++ ac.code ++ "/PR:" ++ pr.code ++ "/UI:" ++ ui.code
    ++ "/S:" ++ s.code ++ "/C:" ++ c.code ++ "/I:" ++ i.code ++ "/A:" ++ a.code

/-- The official CVSS v3.1 base score, written from the claim's formulas:
`Exploitability = 8.22·AV·AC·PR·UI`; `ISS = 1 − (1−C)(1−I)(1−A)`, returning
0.0 when `ISS ≤ 0`; for S=U, `roundUp1(min(6.42·ISS + Exploitability, 10))`;
for S=C, `Impact = 7.52·(ISS−0.029) − 3.25·(ISS−0.02)^15` clamped at 0 and
`roundUp1(min(1.08·(Impact + Exploitability), 10))`. -/
def officialBaseScore (av : AVMetric) (ac : ACMetric) (pr : PRMetric) (ui : UIMetric)
    (s : SMetric) (c i a : CIAMetric) : ℚ :=
  let exploitability := 822/100 * av.weight * ac.weight * pr.weight s * ui.weight
  let iss := 1 - (1 - c.weight) * (1 - i.weight) * (1 - a.weight)
  if iss ≤ 0 then 0
  else
    match s with
    | .C =>
      let impact := max (752/100 * (iss - 29/1000) - 325/100 * (iss - 2/100) ^ 15) 0
      roundUp1Decimal (min (108/100 * (impact + exploitability)) 10)
    | .U => roundUp1Decimal (min (642/100 * iss + exploitability) 10)

/-! ## Time instants (`time.Time`) -/

/-- A time instant, mirroring Go `time.Time`: an integer count of seconds
(here Unix-epoch based) together with a nanosecond offset; Go keeps the
nanosecond component in `[0, 1e9)`. -/
structure Instant where
  sec : Int
  nsec : Nat
deriving DecidableEq

/-- Go `t.After(u)`: strict instant comparison. -/
def Instant.after (t u : Instant) : Bool :=
  t.sec > u.sec || (t.sec == u.sec && t.nsec > u.nsec)

/-- Go's zero `time.Time` (January 1, year 1, 00:00:00 UTC) as a Unix-epoch
second count. -/
def zeroInstant : Instant := ⟨-62135596800, 0⟩

/-- Go `t.IsZero()`: whether the instant is January 1, year 1, 00:00:00 UTC. -/
def Instant.isZero (t : Instant) : Bool := t == zeroInstant

/-- Go `t.Format(time.RFC3339)`, the serialization used for the cursor column.
The RFC3339 layout has no fractional-second field, so the rendered string
denotes exactly the whole second of `t` and the nanosecond component is
dropped; the canonical strings are in order-preserving bijection with the
whole seconds they denote, so a stored string is represented here by that
integer. -/
def formatRFC3339 (t : Instant) : Int := t.sec

/-- Go `time.Parse(time.RFC3339, s)` on a string produced by `formatRFC3339`:
recovers the denoted whole second, with a zero sub-second component. -/
def parseRFC3339 (s : Int) : Instant := ⟨s, 0⟩

/-! ## OSV API data (`osv/client.go`) -/

/-- Struct `osv.Severity`. -/
structure Severity where
  typ : String
  score : String
deriving DecidableEq

/-- Struct `osv.Package`. -/
structure OSVPackage where
  ecosystem : String
  name : String
deriving DecidableEq

/-- The OSV API vulnerability record (`osv.Vulnerability`), restricted to the
fields the scraper and store adapter read; of each `affected` element only
the `package` field is used. -/
structure OSVVulnerability where
  id : String
  modified : Instant
  published : Instant
  summary : String
  details : String
  affected : List OSVPackage
  severity : List Severity
deriving DecidableEq

/-- Go `unicode.IsSpace`: the Unicode white-space property. -/
def goIsSpace (c : Char) : Bool :=
  c = ' ' || c = '\t' || c = '\n' || c = '\x0b' || c = '\x0c' || c = '\r'
    || c = '\x85' || c = '\xA0' || c = ' '
    || (' ' ≤ c && c ≤ ' ')
    || c = ' ' || c = ' ' || c = ' ' || c = ' ' || c = '　'

/-- Go `strings.TrimSpace`: trim Unicode white space from both ends. -/
def goTrimSpace (s : String) : String :=
  String.mk (((s.toList.dropWhile goIsSpace).reverse.dropWhile goIsSpace).reverse)

/-- Function `ExtractFromOSV` from `cvss.go`: take the first severity element, trim its
score; an empty score yields no base score and no error; otherwise parse the
vector, returning `(none, vector, true)` on a parse failure (the third
component records that an error was returned) and `(some base, vector, false)`
on success. -/
def ExtractFromOSV (severities : List Severity) : Option ℚ × String × Bool :=
  match severities with
  | [] => (none, "", false)
  | s :: _ =>
    let vector := goTrimSpace s.score
    if vector = "" then (none, "", false)
    else
      match ParseVector vector with
      | .error _ => (none, vector, true)
      | .ok base => (some base, vector, false)

/-! ## API client retry logic (`osv/client.go`) -/

/-- The outcome of one HTTP round trip inside `getVulnerabilityOnce`: a
transport error (request creation or `Do` failure), or a response carrying a
status code and — relevant only for status 200 — a body that either decodes
into a vulnerability or fails to decode. -/
inductive HTTPOutcome
  | netErr
  | response (status : Nat) (body : Option OSVVulnerability)

/-- The client-level errors of `osv/client.go`: the three sentinel errors,
the wrapped transport/decode/unexpected-status failures, the terminal
`max retries exceeded` error (which wraps `ErrTooManyRequests`), and the
context's error when a backoff wait is cancelled. -/
inductive ClientError
  | notFound
  | badRequest
  | tooManyRequests
  | unexpectedStatus (code : Nat)
  | decodeError
  | requestError
  | maxRetriesExceeded
  | ctxCanceled
deriving DecidableEq

/-- Function `getVulnerabilityOnce`: the status mapping of a single attempt (the
rate-limiter wait preceding the request is not modelled; the claim concerns
the retry layer above it). -/
def getVulnerabilityOnce (r : HTTPOutcome) : Except ClientError OSVVulnerability :=
  match r with
  | .netErr => .error .requestError
  | .response status body =>
    if status = 404 then .error .notFound
    else if status = 400 then .error .badRequest
    else if status = 429 then .error .tooManyRequests
    else if status ≠ 200 then .error (.unexpectedStatus status)
    else
      match body with
      | some v => .ok v
      | none => .error .decodeError

/-- The retry loop of `GetVulnerability` (`maxRetries = 3`): `attempt` is the
Go loop counter and `remaining` the number of attempts left (including the
current one).  `resp` gives the HTTP outcome of each attempt and `ctxDone`
whether the context is cancelled during the backoff after the given attempt
(the `select` prefers the context).  Returns the result together with the
list of backoff sleeps performed, in seconds. -/
def getVulnerabilityLoop (resp : Nat → HTTPOutcome) (ctxDone : Nat → Bool) :
    Nat → Nat → List Nat → Except ClientError OSVVulnerability × List Nat
  | _, 0, sleeps => (.error .maxRetriesExceeded, sleeps)
  | attempt, remaining + 1, sleeps =>
    match getVulnerabilityOnce (resp attempt) with
    | .ok v => (.ok v, sleeps)
    | .error e =>
      if e = .tooManyRequests then
        if remaining = 0 then (.error .maxRetriesExceeded, sleeps)
        else if ctxDone attempt then (.error .ctxCanceled, sleeps)
        else getVulnerabilityLoop resp ctxDone (attempt + 1) remaining (sleeps ++ [attempt + 1])
      else (.error e, sleeps)

/-- Function `GetVulnerability`: up to three attempts with backoffs of 1s then 2s
between consecutive attempts. -/
def GetVulnerability (resp : Nat → HTTPOutcome) (ctxDone : Nat → Bool) :
    Except ClientError OSVVulnerability × List Nat :=
  getVulnerabilityLoop resp ctxDone 0 3 []

/-! ## Store (`internal/store`) -/

/-- Lexicographic order on character lists (structural recursion so the
kernel can evaluate it). -/
def listLtChar : List Char → List Char → Bool
  | [], [] => false
  | [], _ :: _ => true
  | _ :: _, [] => false
  | a :: as, b :: bs => if a < b then true else if b < a then false else listLtChar as bs

/-- SQLite's comparison of two TEXT values under the default BINARY
collation (bytewise; on the ASCII RFC3339 strings this store writes it is
code-point lexicographic order). -/
def strLt (s t : String) : Bool := listLtChar s.toList t.toList

/-- A row of the `vulnerability` table.  `modified` is `NOT NULL`; nullable
columns are `Option`.  Timestamp columns are SQLite TEXT (RFC3339 strings)
and are compared by SQLite as strings, so they are kept as `String`. -/
structure VulnRow where
  id : String
  modified : String
  published : Option String
  summary : String
  details : String
  severity_base_score : Option ℚ
  severity_vector : Option String
deriving DecidableEq

/-- A row of the `affected` table (primary key `(vuln_id, ecosystem, package)`). -/
structure AffectedRow where
  vuln_id : String
  ecosystem : String
  package : String
deriving DecidableEq

/-- A row of the `reported_snapshot` table (primary key `(id, ecosystem,
package)`); `published` and `modified` are always inserted as strings by
`SaveReportSnapshot`, the score and vector through the null helpers. -/
structure SnapshotRow where
  id : String
  ecosystem : String
  package : String
  published : String
  modified : String
  severity_base_score : Option ℚ
  severity_vector : Option String
deriving DecidableEq

/-- The store state: the tables the claims touch.  The `tombstone` table is
not involved in any claim and is omitted.  The cursor column holds the
`formatRFC3339` serialization. -/
structure StoreDB where
  vulns : List VulnRow
  affected : List AffectedRow
  snapshot : List SnapshotRow
  cursors : List (String × Int)
deriving DecidableEq

/-- Struct `store.VulnerabilityReportEntry`: one row of the report queries. -/
structure VulnerabilityReportEntry where
  id : String
  ecosystem : String
  package : String
  published : String
  modified : String
  severity_base_score : Option ℚ
  severity_vector : String
deriving DecidableEq

/-- SQL `COALESCE(x, d)` for a nullable column. -/
def coalesce {α : Type} (x : Option α) (d : α) : α := x.getD d

/-- The selected columns of the report queries for a join row `(v, a)`:
`COALESCE(v.published, '')` and `COALESCE(v.severity_vector, '')` are
null-coalesced in the SELECT list. -/
def mkReportEntry (v : VulnRow) (a : AffectedRow) : VulnerabilityReportEntry :=
  ⟨v.id, a.ecosystem, a.package, coalesce v.published "", v.modified,
    v.severity_base_score, coalesce v.severity_vector ""⟩

/-- Query `GetVulnerabilitiesForReport`: the `vulnerability INNER JOIN affected`
rows, with the optional ecosystem filter.  The `ORDER BY
COALESCE(v.published, v.modified) DESC` clause only permutes rows and is not
modelled. -/
def GetVulnerabilitiesForReport (db : StoreDB) (ecosystem : String) :
    List VulnerabilityReportEntry :=
  db.vulns.flatMap fun v =>
    (db.affected.filter fun a =>
      a.vuln_id == v.id && (ecosystem == "" || a.ecosystem == ecosystem)).map
      (mkReportEntry v)

/-- The `LEFT JOIN reported_snapshot r ON v.id = r.id AND a.ecosystem =
r.ecosystem AND a.package = r.package` partner: `reported_snapshot` has
primary key `(id, ecosystem, package)`, so the partner is the row with the
matching key, if any. -/
def snapshotLookup (snap : List SnapshotRow) (vulnId ecosystem pkg : String) :
    Option SnapshotRow :=
  snap.find? fun r => r.id == vulnId && r.ecosystem == ecosystem && r.package == pkg

/-- The `WHERE` clause of `GetUnreportedVulnerabilities` for the join row
`(v, a)`: no snapshot row for the key (`r.id IS NULL`), or the snapshot
`modified` differs, or the null-coalesced base scores differ (sentinel `-1`),
or the null-coalesced vectors differ (sentinel `''`). -/
def unreportedWhere (snap : List SnapshotRow) (v : VulnRow) (a : AffectedRow) : Bool :=
  match snapshotLookup snap v.id a.ecosystem a.package with
  | none => true
  | some r =>
    r.modified != v.modified
      || coalesce r.severity_base_score (-1) != coalesce v.severity_base_score (-1)
      || coalesce r.severity_vector "" != coalesce v.severity_vector ""

/-- Query `GetUnreportedVulnerabilities`: the same join as
`GetVulnerabilitiesForReport`, restricted by the snapshot-difference
condition. -/
def GetUnreportedVulnerabilities (db : StoreDB) (ecosystem : String) :
    List VulnerabilityReportEntry :=
  db.vulns.flatMap fun v =>
    (db.affected.filter fun a =>
      a.vuln_id == v.id && unreportedWhere db.snapshot v a
        && (ecosystem == "" || a.ecosystem == ecosystem)).map
      (mkReportEntry v)

/-- The claim's difference condition, evaluated on a report entry (whose key
and compared columns determine the snapshot lookup and the comparison). -/
def entryUnreported (snap : List SnapshotRow) (e : VulnerabilityReportEntry) : Bool :=
  match snapshotLookup snap e.id e.ecosystem e.package with
  | none => true
  | some r =>
    r.modified != e.modified
      || coalesce r.severity_base_score (-1) != coalesce e.severity_base_score (-1)
      || coalesce r.severity_vector "" != e.severity_vector

/-- Operation `DeleteVulnerabilitiesOlderThan`: one transaction that deletes the
`affected` rows whose `vuln_id` belongs to a vulnerability with
`modified < cutoff` (the subquery reads the `vulnerability` table before it
is modified) and then deletes those `vulnerability` rows; the TEXT
comparison `modified < ?` is string comparison. -/
def DeleteVulnerabilitiesOlderThan (db : StoreDB) (cutoff : String) : StoreDB :=
  { db with
    affected := db.affected.filter fun a =>
      !(db.vulns.any fun v => v.id == a.vuln_id && strLt v.modified cutoff),
    vulns := db.vulns.filter fun v => !(strLt v.modified cutoff) }

/-- Helper `toNullString` from the store: the empty string is stored as NULL. -/
def toNullString (s : String) : Option String := if s = "" then none else some s

/-- The `reported_snapshot` row inserted by `SaveReportSnapshot` for a report
entry: `published` and `modified` are bound as plain strings, the base score
stays nullable, the vector goes through `toNullString`. -/
def snapshotRowOfEntry (e : VulnerabilityReportEntry) : SnapshotRow :=
  ⟨e.id, e.ecosystem, e.package, e.published, e.modified,
    e.severity_base_score, toNullString e.severity_vector⟩

/-- Operation `SaveReportSnapshot`: one transaction that clears `reported_snapshot` and
inserts one row per provided entry. -/
def SaveReportSnapshot (db : StoreDB) (entries : List VulnerabilityReportEntry) : StoreDB :=
  { db with snapshot := entries.map snapshotRowOfEntry }

/-- Statement `INSERT INTO source_cursor ... ON CONFLICT(source) DO UPDATE`: replace the
row with the matching source, or append a new one. -/
def upsertCursor : List (String × Int) → String → Int → List (String × Int)
  | [], source, c => [(source, c)]
  | (s', c') :: rest, source, c =>
    if s' = source then (source, c) :: rest else (s', c') :: upsertCursor rest source c

/-- Operation `SaveCursor`: store `cursor.Format(time.RFC3339)` under the source. -/
def SaveCursor (db : StoreDB) (source : String) (cursor : Instant) : StoreDB :=
  { db with cursors := upsertCursor db.cursors source (formatRFC3339 cursor) }

/-- Operation `GetCursor`: `none` models the distinguished `sql.ErrNoRows` result when
no row exists; otherwise the stored string is parsed back with
`time.Parse(time.RFC3339, ·)`. -/
def GetCursor (db : StoreDB) (source : String) : Option Instant :=
  (db.cursors.lookup source).map parseRFC3339

/-- Primary-key well-formedness of the store, enforced by SQLite:
`vulnerability.id` and the `affected` key triples are unique. -/
def StoreDB.wf (db : StoreDB) : Prop :=
  (db.vulns.map VulnRow.id).Nodup
    ∧ (db.affected.map fun a => (a.vuln_id, a.ecosystem, a.package)).Nodup

/-! ## Report driver (`internal/app/report.go`) -/

/-- The differential path of `GenerateReport`: query the unreported rows;
when there are none, warn and return without touching the snapshot;
otherwise emit the rows, re-query the full current set and replace the
snapshot with it.  Formatting and file writing act only on the emitted rows
and are not modelled. -/
def generateReportDiff (db : StoreDB) (ecosystem : String) :
    List VulnerabilityReportEntry × StoreDB :=
  let entries := GetUnreportedVulnerabilities db ecosystem
  if entries.isEmpty then (entries, db)
  else (entries, SaveReportSnapshot db (GetVulnerabilitiesForReport db ecosystem))

/-! ## Store adapter of the fetch driver (`internal/app`) -/

/-- Struct `store.Vulnerability`, the Go struct handed to `Store.SaveVulnerability`. -/
structure StoreVulnerability where
  id : String
  modified : Instant
  published : Instant
  summary : String
  details : String
  severity_base_score : Option ℚ
  severity_vector : String
deriving DecidableEq

/-- Method `storeAdapter.SaveVulnerability`: extract the severity, emit a debug log
when parsing failed (the `Bool` component), and hand the record to the store
regardless — a severity parse error never fails the save. -/
def storeAdapterSaveVulnerability (v : OSVVulnerability) : StoreVulnerability × Bool :=
  let ext := ExtractFromOSV v.severity
  (⟨v.id, v.modified, v.published, v.summary, v.details, ext.1, ext.2.1⟩, ext.2.2)

/-! ## Sitemap fetcher and fetch driver (`internal/fetcher`, `internal/app`) -/

/-- One `<url>` element of the sitemap, represented by the outcomes of the
two library calls `parseSitemap` applies to its fields: `lastmod` is the
result of `time.Parse(time.RFC3339, u.LastMod)` (`none` on parse failure) and
`locId` the capture of the vulnerability-id regular expression on `u.Loc`
(`none` when the pattern does not match). -/
structure SitemapURL where
  locId : Option String
  lastmod : Option Instant

/-- Struct `osv.Entry`. -/
structure Entry where
  id : String
  modified : Instant
deriving DecidableEq

/-- Method `parseSitemap` of the sitemap fetcher: skip entries with unparsable
`lastmod`; when the configured cursor is nonzero, keep only entries with
`lastmod.After(cursor)`; skip entries whose URL yields no id; emit in
document order. -/
def parseSitemap (cursor : Instant) (urls : List SitemapURL) : List Entry :=
  urls.filterMap fun u =>
    match u.lastmod with
    | none => none
    | some lastmod =>
      if !cursor.isZero && !lastmod.after cursor then none
      else
        match u.locId with
        | none => none
        | some entryId => some ⟨entryId, lastmod⟩

/-- Function `osv.FilterByCursor`: keep entries with `Modified.After(cursor)`. -/
def FilterByCursor (entries : List Entry) (cursor : Instant) : List Entry :=
  entries.filter fun e => e.modified.after cursor

/-- The cursor-relevant behaviour of `processEcosystem` (fetch driver): load
the cursor (the zero instant when absent), fetch and cursor-filter the
sitemap, drop entries at or before the retention cutoff, and — only when
entries remain and every batch of the scrape succeeds (`scrapeOk`) — store
the `modified` of the last entry of the processed sequence as the new
cursor.  The scraper's vulnerability writes and the subsequent retention
pruning never touch `source_cursor` and are out of scope here;
`time.Now().AddDate(0, 0, -retentionDays)` is modelled as subtracting
`retentionDays·86400` seconds. -/
def processEcosystemCursor (db : StoreDB) (source : String) (now : Instant)
    (retentionDays : Int) (urls : List SitemapURL) (scrapeOk : Bool) : StoreDB :=
  let lastCursor := (GetCursor db source).getD zeroInstant
  let entries := parseSitemap lastCursor urls
  let retentionCutoff : Instant := ⟨now.sec - 86400 * retentionDays, now.nsec⟩
  let retentionFiltered := FilterByCursor entries retentionCutoff
  match retentionFiltered.getLast? with
  | none => db
  | some last => if scrapeOk then SaveCursor db source last.modified else db

/-! ## CSV formatter (`report` package) -/

/-- Helper `formatString` of the report formatters: absent/empty renders as `NA`. -/
def formatString (val : String) : String := if val = "" then "NA" else val

/-- Helper `formatBaseScore`: `NA` when absent, otherwise `fmt.Sprintf("%.1f", v)`.
Modelled as decimal rendering of the score rounded to one fractional digit
(the scores this pipeline produces carry at most one decimal digit, so the
rounding never fires). -/
def formatBaseScore : Option ℚ → String
  | none => "NA"
  | some q =>
    let n : Int := ⌊q * 10 + 1/2⌋
    toString (n / 10) ++ "." ++ toString ((n % 10).natAbs)

/-- The dangerous leading characters of `escapeCSVInjection`. -/
def isDangerousChar (c : Char) : Bool := c = '=' || c = '+' || c = '-' || c = '@'

/-- Function `escapeCSVInjection` (CSV formatter): empty fields are returned as-is;
otherwise trim leading Unicode white space
(`strings.TrimLeftFunc(s, unicode.IsSpace)`); an all-white-space field is
returned as-is; otherwise a field whose first rune is `=`, `+`, `-` or `@`
gets a single quote prepended. -/
def escapeCSVInjection (s : String) : String :=
  if s = "" then s
  else
    match s.toList.dropWhile goIsSpace with
    | [] => s
    | first :: _ => if isDangerousChar first then "'" ++ s else s

/-- The escape trigger as the (amended) claim states it: the field, after
trimming leading Unicode white space, begins with a dangerous character. -/
def needsEscape (s : String) : Bool :=
  match s.toList.dropWhile goIsSpace with
  | [] => false
  | first :: _ => isDangerousChar first

/-- The escape rule exactly as the original claim states it: trim only
space, tab, CR and LF before inspecting the first character, and leave every
other field unchanged. -/
def escapeCSVInjectionClaimed (s : String) : String :=
  match s.toList.dropWhile (fun c => c = ' ' || c = '\t' || c = '\r' || c = '\n') with
  | [] => s
  | first :: _ => if isDangerousChar first then "'" ++ s else s

/-- The per-entry CSV record of `CSVFormatter.Format`, before `encoding/csv`
RFC 4180 quoting: every field goes through `escapeCSVInjection`. -/
def csvRecord (e : VulnerabilityReportEntry) : List String :=
  [escapeCSVInjection e.ecosystem,
   escapeCSVInjection e.package,
   escapeCSVInjection e.id,
   escapeCSVInjection (formatString e.published),
   escapeCSVInjection (formatString e.modified),
   escapeCSVInjection (formatBaseScore e.severity_base_score),
   escapeCSVInjection (formatString e.severity_vector)]

/-! ## Concrete fixtures used by witnesses and counterexamples -/

/-- A store with an old and a recent vulnerability, each with one affected
row (retention fixture). -/
def retentionDB : StoreDB :=
  ⟨[⟨"GHSA-old", "2025-01-01T00:00:00Z", none, "", "", none, none⟩,
    ⟨"GHSA-new", "2025-03-01T00:00:00Z", none, "", "", none, none⟩],
   [⟨"GHSA-old", "npm", "left-pad"⟩, ⟨"GHSA-new", "npm", "express"⟩],
   [], []⟩

/-- A store whose data tables are empty but whose snapshot still holds a
stale row (empty-diff fixture). -/
def staleSnapshotDB : StoreDB :=
  ⟨[], [],
   [⟨"GHSA-gone", "npm", "left-pad", "", "2025-01-01T00:00:00Z", none, none⟩],
   []⟩

/-- A store with a single vulnerability/affected pair and no snapshot
(differential-report fixture). -/
def oneVulnDB : StoreDB :=
  ⟨[⟨"GHSA-a", "2025-03-01T00:00:00Z", some "2025-02-01T00:00:00Z", "s", "d",
     some (98/10), some "CVSS:3.1/AV:N/AC:L/PR:N/UI:N/S:U/C:H/I:H/A:H"⟩],
   [⟨"GHSA-a", "npm", "express"⟩],
   [], []⟩

/-- A store whose `source_cursor` for `npm` holds Go's zero instant
(serialized `0001-01-01T00:00:00Z`). -/
def zeroCursorDB : StoreDB := ⟨[], [], [], [("npm", -62135596800)]⟩

/-- A sitemap with one entry 100 seconds before Go's zero instant (lastmod
`0000-12-31T23:58:20Z`, a valid RFC3339 timestamp). -/
def preZeroSitemap : List SitemapURL := [⟨some "GHSA-x", some ⟨-62135596900, 0⟩⟩]

/-- A store whose `source_cursor` for `npm` holds the instant
`2023-11-14T22:13:20Z` (Unix second 1700000000). -/
def ordinaryCursorDB : StoreDB := ⟨[], [], [], [("npm", 1700000000)]⟩

/-- A sitemap with one entry 100 seconds after the `ordinaryCursorDB`
cursor. -/
def laterSitemap : List SitemapURL := [⟨some "GHSA-y", some ⟨1700000100, 0⟩⟩]

/-- An OSV record whose only severity score is `"ZZZ "` (unparsable, with
trailing white space). -/
def unparsableSeverityVuln : OSVVulnerability :=
  ⟨"GHSA-bad", ⟨0, 0⟩, ⟨0, 0⟩, "", "", [], [⟨"CVSS_V3", "ZZZ "⟩]⟩

/-- An OSV record whose only severity score is the bare numeric string
`"99.9"`. -/
def numericSeverityVuln : OSVVulnerability :=
  ⟨"GHSA-num", ⟨0, 0⟩, ⟨0, 0⟩, "", "", [], [⟨"CVSS_V3", "99.9"⟩]⟩

end OsvSpec

deriving instance DecidableEq for Except

namespace OsvSpec

/-! ## Theorems -/

/-- Looking up a source right after upserting it yields the new value. -/
theorem lookup_upsertCursor (l : List (String × Int)) (source : String) (c : Int) :
    (upsertCursor l source c).lookup source = some c := by
  induction l with
  | nil => simp [upsertCursor, List.lookup]
  | cons p rest ih =>
    obtain ⟨s', c'⟩ := p
    by_cases h : s' = source
    · simp [upsertCursor, h, List.lookup]
    · have hbe : (source == s') = false := by
        simp only [beq_eq_false_iff_ne, ne_eq]
        exact fun e => h e.symm
      simp [upsertCursor, if_neg h, List.lookup, hbe, ih]

/-- Claim C10: For every source and instant, `GetCursor` after `SaveCursor`
returns the instant truncated to whole-second precision: the cursor is
serialized as an RFC3339 string without fractional seconds, so the
sub-second component is discarded in the round trip; the result equals the
saved instant exactly iff it had no sub-second component; and a repeated
`SaveCursor` for the same source overwrites the previous value.
-/
theorem getCursor_saveCursor_roundtrip (db : StoreDB) (source : String) (t : Instant) :
    GetCursor (SaveCursor db source t) source = some ⟨t.sec, 0⟩
    ∧ ((⟨t.sec, 0⟩ : Instant) = t ↔ t.nsec = 0)
    ∧ ∀ u : Instant,
        GetCursor (SaveCursor (SaveCursor db source t) source u) source = some ⟨u.sec, 0⟩ := by
  refine ⟨?_, ?_, ?_⟩
  · simp [GetCursor, SaveCursor, lookup_upsertCursor, parseRFC3339, formatRFC3339]
  · cases t with
    | mk sec nsec => simp [Instant.mk.injEq, eq_comm]
  · intro u
    simp [GetCursor, SaveCursor, lookup_upsertCursor, parseRFC3339, formatRFC3339]

/-- Claim C3: `DeleteVulnerabilitiesOlderThan cutoff` (one transaction: first the
dependent `affected` rows of the vulnerabilities with `modified < cutoff`,
then those vulnerability rows) leaves no vulnerability with
`modified < cutoff`, leaves no `affected` row referencing a deleted
vulnerability, and deletes nothing else: a vulnerability survives iff its
`modified` is not below the cutoff, and an `affected` row survives iff no
parent vulnerability of its id was below the cutoff.
-/
theorem deleteVulnerabilitiesOlderThan_spec (db : StoreDB) (cutoff : String) :
    (∀ v ∈ (DeleteVulnerabilitiesOlderThan db cutoff).vulns, strLt v.modified cutoff = false)
    ∧ (∀ a ∈ (DeleteVulnerabilitiesOlderThan db cutoff).affected,
        ∀ v ∈ db.vulns, v.id = a.vuln_id → strLt v.modified cutoff = false)
    ∧ (∀ v ∈ db.vulns,
        v ∈ (DeleteVulnerabilitiesOlderThan db cutoff).vulns ↔ strLt v.modified cutoff = false)
    ∧ (∀ a ∈ db.affected,
        a ∈ (DeleteVulnerabilitiesOlderThan db cutoff).affected
          ↔ ∀ v ∈ db.vulns, v.id = a.vuln_id → strLt v.modified cutoff = false) := by
  refine ⟨?_, ?_, ?_, ?_⟩
  · intro v hv
    have h := (List.mem_filter.mp hv).2
    simpa using h
  · intro a ha v hv hid
    have h := (List.mem_filter.mp ha).2
    simp only [Bool.not_eq_true', List.any_eq_false] at h
    have := h v hv
    simpa [hid] using this
  · intro v hv
    simp [DeleteVulnerabilitiesOlderThan, List.mem_filter, hv]
  · intro a ha
    simp only [DeleteVulnerabilitiesOlderThan, List.mem_filter, ha, true_and,
      Bool.not_eq_true', List.any_eq_false]
    constructor
    · intro h v hv hid
      have := h v hv
      simpa [hid] using this
    · intro h v hv
      by_cases hid : v.id = a.vuln_id
      · simp [hid, h v hv hid]
      · simp [hid]

set_option maxRecDepth 8000 in
/-- Claim C5: `GetVulnerability` retries only on HTTP 429, with a linear backoff
of 1s then 2s (three attempts total): any first-attempt outcome other than
429 is terminal with no backoff — 404 maps to `NotFound`, 400 to
`BadRequest`, any other non-200 status to a generic error carrying the
code, and network errors are not retried; three 429s produce the terminal
max-retries error (wrapping `TooManyRequests`) after backoffs of 1s and 2s;
a success after a 429 returns the vulnerability after the single 1s
backoff; and cancellation of the context during a backoff aborts the wait
and returns the context's error.
-/
theorem getVulnerability_retry_spec (resp : Nat → HTTPOutcome) (ctxDone : Nat → Bool) :
    (resp 0 = .netErr → GetVulnerability resp ctxDone = (.error .requestError, []))
    ∧ (∀ b, resp 0 = .response 404 b → GetVulnerability resp ctxDone = (.error .notFound, []))
    ∧ (∀ b, resp 0 = .response 400 b → GetVulnerability resp ctxDone = (.error .badRequest, []))
    ∧ (∀ s b, s ≠ 200 → s ≠ 400 → s ≠ 404 → s ≠ 429 → resp 0 = .response s b →
        GetVulnerability resp ctxDone = (.error (.unexpectedStatus s), []))
    ∧ (∀ v, resp 0 = .response 200 (some v) → GetVulnerability resp ctxDone = (.ok v, []))
    ∧ ((∀ i, i < 3 → ∃ b, resp i = .response 429 b) → (∀ i, ctxDone i = false) →
        GetVulnerability resp ctxDone = (.error .maxRetriesExceeded, [1, 2]))
    ∧ (∀ b v, resp 0 = .response 429 b → ctxDone 0 = false → resp 1 = .response 200 (some v) →
        GetVulnerability resp ctxDone = (.ok v, [1]))
    ∧ (∀ b, resp 0 = .response 429 b → ctxDone 0 = true →
        GetVulnerability resp ctxDone = (.error .ctxCanceled, [])) := by
  refine ⟨?_, ?_, ?_, ?_, ?_, ?_, ?_, ?_⟩
  · intro h0
    simp [GetVulnerability, getVulnerabilityLoop, getVulnerabilityOnce, h0]
  · intro b h0
    simp [GetVulnerability, getVulnerabilityLoop, getVulnerabilityOnce, h0]
  · intro b h0
    simp [GetVulnerability, getVulnerabilityLoop, getVulnerabilityOnce, h0]
  · intro s b h200 h400 h404 h429 h0
    simp [GetVulnerability, getVulnerabilityLoop, getVulnerabilityOnce, h0,
      h200, h400, h404, h429]
  · intro v h0
    simp [GetVulnerability, getVulnerabilityLoop, getVulnerabilityOnce, h0]
  · intro hresp hdone
    obtain ⟨b0, h0⟩ := hresp 0 (by norm_num)
    obtain ⟨b1, h1⟩ := hresp 1 (by norm_num)
    obtain ⟨b2, h2⟩ := hresp 2 (by norm_num)
    simp [GetVulnerability, getVulnerabilityLoop, getVulnerabilityOnce, h0, h1, h2,
      hdone 0, hdone 1]
  · intro b v h0 hd0 h1
    simp [GetVulnerability, getVulnerabilityLoop, getVulnerabilityOnce, h0, hd0, h1]
  · intro b h0 hd0
    simp [GetVulnerability, getVulnerabilityLoop, getVulnerabilityOnce, h0, hd0]

/-- Witness for C5: a server that always answers 429, with no cancellation,
yields the terminal max-retries error after the 1s and 2s backoffs. -/
theorem getVulnerability_retry_spec_witness :
    GetVulnerability (fun _ => .response 429 none) (fun _ => false)
      = (.error .maxRetriesExceeded, [1, 2]) :=
  (getVulnerability_retry_spec (fun _ => .response 429 none) (fun _ => false)).2.2.2.2.2.1
    (fun _ _ => ⟨none, rfl⟩) (fun _ => rfl)

/-- Claim C7 counterexample: The claim says the *original* vector string is stored
on severity parse failure; the adapter stores the white-space-trimmed
string: for the severity score `"ZZZ "` (which fails to parse, and is
logged — the `true` component) the stored vector is `"ZZZ"`, not the
original `"ZZZ "`.
-/
theorem storeAdapter_severity_trims_vector :
    (storeAdapterSaveVulnerability unparsableSeverityVuln).1.severity_vector = "ZZZ"
    ∧ (storeAdapterSaveVulnerability unparsableSeverityVuln).2 = true
    ∧ unparsableSeverityVuln.severity.head?.map Severity.score = some "ZZZ "
    ∧ "ZZZ" ≠ "ZZZ " := by decide

/-- Claim C7 amended: For every fetched vulnerability whose first severity score
is non-empty after trimming and fails to parse, persistence still succeeds:
the adapter stores the *trimmed* vector string in `severity_vector`, leaves
`severity_base_score` null, emits a debug log (the `true` component), and
returns the record to be saved rather than an error — the parse failure does
not fail the entry or cancel the batch.
-/
theorem storeAdapter_severity_parse_failure_nonfatal
    (v : OSVVulnerability) (s : Severity) (rest : List Severity)
    (hsev : v.severity = s :: rest)
    (hne : goTrimSpace s.score ≠ "")
    (herr : ∀ q, ParseVector (goTrimSpace s.score) ≠ .ok q) :
    (storeAdapterSaveVulnerability v).1.severity_base_score = none
    ∧ (storeAdapterSaveVulnerability v).1.severity_vector = goTrimSpace s.score
    ∧ (storeAdapterSaveVulnerability v).2 = true
    ∧ (storeAdapterSaveVulnerability v).1.id = v.id := by
  unfold storeAdapterSaveVulnerability ExtractFromOSV
  rw [hsev]
  cases hpv : ParseVector (goTrimSpace s.score) with
  | ok q => exact absurd hpv (herr q)
  | error e => simp [hne, hpv]

/-- Witness for C7 at the `"ZZZ "` fixture. -/
theorem storeAdapter_severity_parse_failure_nonfatal_witness :
    (storeAdapterSaveVulnerability unparsableSeverityVuln).1.severity_base_score = none
    ∧ (storeAdapterSaveVulnerability unparsableSeverityVuln).1.severity_vector = "ZZZ" := by
  have h := storeAdapter_severity_parse_failure_nonfatal unparsableSeverityVuln
    ⟨"CVSS_V3", "ZZZ "⟩ [] rfl (by decide)
    (by
      intro q hq
      rw [show ParseVector (goTrimSpace "ZZZ ") = .error "invalid number" from by decide] at hq
      cases hq)
  exact ⟨h.1, h.2.1.trans (by decide)⟩

/-- Claim C8 counterexample: The code trims *Unicode* white space
(`unicode.IsSpace`) before inspecting the first rune, not only space, tab,
CR and LF as the claim states: a field beginning with a vertical tab
followed by `=` is escaped by the code, while the claim's rule would leave
it unchanged.
-/
theorem escapeCSVInjection_counterexample :
    escapeCSVInjection "\x0b=x" = "'\x0b=x"
    ∧ escapeCSVInjectionClaimed "\x0b=x" = "\x0b=x"
    ∧ escapeCSVInjection "\x0b=x" ≠ escapeCSVInjectionClaimed "\x0b=x" := by decide

/-- Claim C8 amended: For every field value: if the value, after trimming
leading *Unicode* white space (Go `unicode.IsSpace`: space, tab, CR, LF,
vertical tab, form feed and the other Unicode spaces), begins with `=`, `+`,
`-` or `@`, the emitted field is the original value with a single quote
prepended — and only then; every other value, in particular every empty or
all-white-space value, is emitted unchanged.  Every field of a CSV record
goes through this escape (RFC 4180 quoting is applied downstream by
`encoding/csv` and is not modelled).
-/
theorem escapeCSVInjection_spec (s : String) (e : VulnerabilityReportEntry) :
    (needsEscape s = true → escapeCSVInjection s = "'" ++ s)
    ∧ (needsEscape s = false → escapeCSVInjection s = s)
    ∧ (escapeCSVInjection s = "'" ++ s ↔ needsEscape s = true)
    ∧ (s.toList.all goIsSpace = true → escapeCSVInjection s = s)
    ∧ (∀ f ∈ csvRecord e, ∃ raw, f = escapeCSVInjection raw) := by
  have hne : "'" ++ s ≠ s := by
    intro hcontra
    have hlen := congrArg String.length hcontra
    rw [String.length_append] at hlen
    have hq : ("'" : String).length = 1 := by decide
    rw [hq] at hlen
    omega
  have hmain : (needsEscape s = true → escapeCSVInjection s = "'" ++ s)
      ∧ (needsEscape s = false → escapeCSVInjection s = s) := by
    by_cases hs : s = ""
    · subst hs
      constructor
      · intro h; cases h.symm.trans (by decide : needsEscape "" = false)
      · intro _; decide
    · unfold escapeCSVInjection needsEscape
      rw [if_neg hs]
      cases hdw : s.toList.dropWhile goIsSpace with
      | nil => simp
      | cons first tail => by_cases hdang : isDangerousChar first = true <;> simp [hdang]
  refine ⟨hmain.1, hmain.2, ?_, ?_, ?_⟩
  · constructor
    · intro h
      by_contra hnot
      have hfalse : needsEscape s = false := by
        cases hval : needsEscape s
        · rfl
        · exact absurd hval hnot
      have hid := hmain.2 hfalse
      exact hne (h.symm.trans hid)
    · exact hmain.1
  · intro hall
    apply hmain.2
    unfold needsEscape
    rw [List.dropWhile_eq_nil_iff.mpr]
    intro c hc
    exact List.all_eq_true.mp hall c hc
  · intro f hf
    simp only [csvRecord, List.mem_cons, List.not_mem_nil, or_false] at hf
    rcases hf with h | h | h | h | h | h | h <;> exact ⟨_, h⟩

/-- Witness for C8: a field with only an ASCII-space prefix before `=` is
escaped; a plain word is unchanged. -/
theorem escapeCSVInjection_spec_witness :
    escapeCSVInjection " =SUM(A1)" = "' =SUM(A1)"
    ∧ escapeCSVInjection "npm" = "npm" := by
  constructor
  · exact (escapeCSVInjection_spec " =SUM(A1)"
      ⟨"", "", "", "", "", none, ""⟩).1 (by decide)
  · exact (escapeCSVInjection_spec "npm"
      ⟨"", "", "", "", "", none, ""⟩).2.1 (by decide)

/-- If a lookup in an association list succeeds, the value is among the
mapped second components. -/
theorem mem_snd_of_lookup {α β : Type} [BEq α] :
    ∀ {l : List (α × β)} {k : α} {v : β}, l.lookup k = some v → v ∈ l.map Prod.snd := by
  intro l
  induction l with
  | nil => intro k v h; cases h
  | cons p rest ih =>
    intro k v h
    obtain ⟨k', v'⟩ := p
    rw [List.lookup] at h
    cases hbe : k == k' with
    | true => rw [hbe] at h; cases h; simp
    | false =>
      rw [hbe] at h
      simpa using Or.inr (ih h)

/-- Inversion of `Except` bind on a successful result. -/
theorem except_bind_ok {ε α β : Type} {x : Except ε α} {f : α → Except ε β} {b : β}
    (h : x >>= f = .ok b) : ∃ a, x = .ok a ∧ f a = .ok b := by
  cases x with
  | error e => simp [Bind.bind, Except.bind] at h
  | ok a => exact ⟨a, rfl, by simpa [Bind.bind, Except.bind] using h⟩

/-- Inversion of a successful `lookupWeight`. -/
theorem lookupWeight_ok {table : List (String × ℚ)} {k errMsg : String} {w : ℚ}
    (h : lookupWeight table k errMsg = .ok w) : table.lookup k = some w := by
  unfold lookupWeight at h
  split at h
  · cases h
  · cases h; assumption

/-- All CVSS weight-table values are nonnegative, so a successful lookup
yields a nonnegative weight. -/
theorem lookup_weight_nonneg {l : List (String × ℚ)} {k : String} {w : ℚ}
    (hl : ∀ x ∈ l.map Prod.snd, 0 ≤ x) (h : l.lookup k = some w) : 0 ≤ w :=
  hl w (mem_snd_of_lookup h)

/-- Function `roundUp1Decimal` maps `[0, ∞)` into `[0, ∞)`. -/
theorem roundUp1Decimal_nonneg {q : ℚ} (h : 0 ≤ q) : 0 ≤ roundUp1Decimal q := by
  unfold roundUp1Decimal
  have hceil : (0 : ℤ) ≤ ⌈q * 10⌉ := Int.ceil_nonneg (by positivity)
  have : (0 : ℚ) ≤ (⌈q * 10⌉ : ℚ) := by exact_mod_cast hceil
  positivity

/-- Function `roundUp1Decimal` maps `(-∞, 10]` into `(-∞, 10]`. -/
theorem roundUp1Decimal_le_ten {q : ℚ} (h : q ≤ 10) : roundUp1Decimal q ≤ 10 := by
  unfold roundUp1Decimal
  rw [div_le_iff₀ (by norm_num : (0 : ℚ) < 10)]
  have h100 : ⌈q * 10⌉ ≤ (100 : ℤ) := Int.ceil_le.mpr (by push_cast; linarith)
  calc ((⌈q * 10⌉ : ℤ) : ℚ) ≤ (100 : ℚ) := by exact_mod_cast h100
    _ = 10 * 10 := by norm_num

/-- Every successful evaluation of the CVSS v3 metric formula lies in
`[0, 10]`. -/
theorem computeFromMetrics_ok_bounds (metrics : List (String × String)) (q : ℚ)
    (h : computeFromMetrics metrics = .ok q) : 0 ≤ q ∧ q ≤ 10 := by
  unfold computeFromMetrics at h
  split at h
  · exact absurd h (by simp)
  obtain ⟨av, hav, h⟩ := except_bind_ok h
  obtain ⟨ac, hac, h⟩ := except_bind_ok h
  obtain ⟨pr, hpr, h⟩ := except_bind_ok h
  obtain ⟨ui, hui, h⟩ := except_bind_ok h
  obtain ⟨conf, hconf, h⟩ := except_bind_ok h
  obtain ⟨integ, hinteg, h⟩ := except_bind_ok h
  obtain ⟨avail, havail, h⟩ := except_bind_ok h
  simp only [pure, Except.pure] at h
  have hav' : 0 ≤ av :=
    lookup_weight_nonneg (by intro x hx; fin_cases hx <;> norm_num) (lookupWeight_ok hav)
  have hac' : 0 ≤ ac :=
    lookup_weight_nonneg (by intro x hx; fin_cases hx <;> norm_num) (lookupWeight_ok hac)
  have hui' : 0 ≤ ui :=
    lookup_weight_nonneg (by intro x hx; fin_cases hx <;> norm_num) (lookupWeight_ok hui)
  have hpr' : 0 ≤ pr := by
    have hpr' := lookupWeight_ok hpr
    cases hsc : (metricVal metrics "S" == "C" : Bool)
    · rw [hsc] at hpr'
      simp only [Bool.false_eq_true, if_false] at hpr'
      exact lookup_weight_nonneg (by intro x hx; fin_cases hx <;> norm_num) hpr'
    · rw [hsc] at hpr'
      simp only [if_true] at hpr'
      exact lookup_weight_nonneg (by intro x hx; fin_cases hx <;> norm_num) hpr'
  have hexp : 0 ≤ 822/100 * av * ac * pr * ui := by positivity
  split at h
  · cases h
    norm_num
  next hiss =>
  push_neg at hiss
  split at h
  · cases h
    constructor
    · exact roundUp1Decimal_nonneg (le_min (by positivity) (by norm_num))
    · exact roundUp1Decimal_le_ten (min_le_right _ _)
  · cases h
    constructor
    · exact roundUp1Decimal_nonneg (le_min (by positivity) (by norm_num))
    · exact roundUp1Decimal_le_ten (min_le_right _ _)

set_option maxRecDepth 100000 in
/-- Claim C9 counterexample: The parser accepts the bare numeric severity string
`"99.9"` and the adapter hands 99.9 to the store as `severity_base_score` —
outside the claimed range 0.0–10.0 (and `"-1.5"` would likewise be stored
negative).
-/
theorem severity_base_score_out_of_range :
    (storeAdapterSaveVulnerability numericSeverityVuln).1.severity_base_score = some (999/10)
    ∧ ¬ ((999 : ℚ)/10 ≤ 10) := by
  with_unfolding_all decide

/-- Claim C9 amended: Every base score computed from a CVSS v3.x vector lies in
`[0, 10]`; consequently every `severity_base_score` the adapter persists
whose stored vector carries the `CVSS:3.` prefix is in range.  Bare numeric
severity strings are persisted exactly as parsed and are not bounded (see
the counterexample).
-/
theorem severity_base_score_cvss_range :
    (∀ (s : String) (q : ℚ), computeCVSS3BaseScore s = .ok q → 0 ≤ q ∧ q ≤ 10)
    ∧ (∀ (v : OSVVulnerability) (q : ℚ),
        (storeAdapterSaveVulnerability v).1.severity_base_score = some q →
        strStartsWith (storeAdapterSaveVulnerability v).1.severity_vector "CVSS:3." = true →
        0 ≤ q ∧ q ≤ 10) := by
  have hmain : ∀ (s : String) (q : ℚ), computeCVSS3BaseScore s = .ok q → 0 ≤ q ∧ q ≤ 10 := by
    intro s q h
    unfold computeCVSS3BaseScore at h
    split at h
    · exact absurd h (by simp)
    · exact absurd h (by simp)
    split at h
    · exact computeFromMetrics_ok_bounds _ _ h
    · exact absurd h (by simp)
  refine ⟨hmain, ?_⟩
  intro v q hscore hpfx
  unfold storeAdapterSaveVulnerability ExtractFromOSV at hscore hpfx
  cases hsev : v.severity with
  | nil => rw [hsev] at hscore; simp at hscore
  | cons s rest =>
    rw [hsev] at hscore hpfx
    by_cases hne : goTrimSpace s.score = ""
    · simp [hne] at hscore
    · cases hpv : ParseVector (goTrimSpace s.score) with
      | error e => simp [hne, hpv] at hscore
      | ok b =>
        simp only [hne, if_false, if_neg hne, hpv] at hscore hpfx
        have hbq : b = q := by simpa using hscore
        subst hbq
        have hpre : strStartsWith (goTrimSpace s.score) "CVSS:3." = true := by
          simpa using hpfx
        have hcv : computeCVSS3BaseScore (goTrimSpace s.score) = .ok b := by
          unfold ParseVector at hpv
          rw [if_pos hpre] at hpv
          exact hpv
        exact hmain _ _ hcv

/-- Witness for C9's amended range statement at the canonical 9.8 vector. -/
theorem severity_base_score_cvss_range_witness :
    (0 : ℚ) ≤ 98/10 ∧ (98 : ℚ)/10 ≤ 10 :=
  severity_base_score_cvss_range.1 "CVSS:3.1/AV:N/AC:L/PR:N/UI:N/S:U/C:H/I:H/A:H" (98/10)
    (by with_unfolding_all decide)

/-- Witness for C3 at the retention fixture with cutoff
`2025-02-01T00:00:00Z`: the old row is gone, the recent row and its
affected row survive, and the orphaned affected row is gone. -/
theorem deleteVulnerabilitiesOlderThan_spec_witness :
    (⟨"GHSA-new", "2025-03-01T00:00:00Z", none, "", "", none, none⟩ : VulnRow)
        ∈ (DeleteVulnerabilitiesOlderThan retentionDB "2025-02-01T00:00:00Z").vulns
    ∧ ¬ (⟨"GHSA-old", "2025-01-01T00:00:00Z", none, "", "", none, none⟩ : VulnRow)
        ∈ (DeleteVulnerabilitiesOlderThan retentionDB "2025-02-01T00:00:00Z").vulns
    ∧ (⟨"GHSA-new", "npm", "express"⟩ : AffectedRow)
        ∈ (DeleteVulnerabilitiesOlderThan retentionDB "2025-02-01T00:00:00Z").affected := by
  refine ⟨?_, ?_, ?_⟩
  · exact ((deleteVulnerabilitiesOlderThan_spec retentionDB "2025-02-01T00:00:00Z").2.2.1
      ⟨"GHSA-new", "2025-03-01T00:00:00Z", none, "", "", none, none⟩ (by decide)).mpr
      (by decide)
  · intro hmem
    exact absurd
      ((deleteVulnerabilitiesOlderThan_spec retentionDB "2025-02-01T00:00:00Z").1 _ hmem)
      (by decide)
  · exact ((deleteVulnerabilitiesOlderThan_spec retentionDB "2025-02-01T00:00:00Z").2.2.2
      ⟨"GHSA-new", "npm", "express"⟩ (by decide)).mpr (by decide)

/-- The entry-level difference condition agrees with the join-level `WHERE`
clause on join rows. -/
theorem entryUnreported_mkReportEntry (snap : List SnapshotRow) (v : VulnRow) (a : AffectedRow) :
    entryUnreported snap (mkReportEntry v a) = unreportedWhere snap v a := rfl

/-- Membership characterization of the unreported query: a row is in the
result iff it is a current report row whose snapshot comparison differs.
(Shared helper; the C1 claim theorem restates it together with the exact
list-level characterization.) -/
theorem mem_getUnreported_iff (db : StoreDB) (ecosystem : String)
    (e : VulnerabilityReportEntry) :
    e ∈ GetUnreportedVulnerabilities db ecosystem
      ↔ e ∈ GetVulnerabilitiesForReport db ecosystem
        ∧ entryUnreported db.snapshot e = true := by
  simp only [GetUnreportedVulnerabilities, GetVulnerabilitiesForReport, List.mem_flatMap,
    List.mem_filter, List.mem_map, Bool.and_eq_true]
  constructor
  · rintro ⟨v, hv, a, ⟨ha, ⟨hbeq, hunrep⟩, heco⟩, rfl⟩
    refine ⟨⟨v, hv, a, ⟨ha, hbeq, heco⟩, rfl⟩, ?_⟩
    rw [entryUnreported_mkReportEntry]
    exact hunrep
  · rintro ⟨⟨v, hv, a, ⟨ha, hbeq, heco⟩, rfl⟩, hunrep⟩
    rw [entryUnreported_mkReportEntry] at hunrep
    exact ⟨v, hv, a, ⟨ha, ⟨hbeq, hunrep⟩, heco⟩, rfl⟩

/-- Claim C1: For every store state and optional ecosystem filter,
`GetUnreportedVulnerabilities` returns exactly the rows of the current
report query (the vulnerability–affected inner join,
`GetVulnerabilitiesForReport`) that differ from the `reported_snapshot`
keyed on `(id, ecosystem, package)` and compared on
`(modified, severity_base_score, severity_vector)`: the result is literally
the filter of the report query by the difference condition, and a row is
returned iff there is no snapshot row for its key, or the snapshot
`modified` differs, or the coalesced base scores differ (nulls collapsed to
the sentinel −1), or the coalesced vectors differ (nulls collapsed to the
empty string).
-/
theorem getUnreportedVulnerabilities_spec (db : StoreDB) (ecosystem : String) :
    GetUnreportedVulnerabilities db ecosystem
      = (GetVulnerabilitiesForReport db ecosystem).filter
          (fun e => entryUnreported db.snapshot e)
    ∧ ∀ e : VulnerabilityReportEntry,
        e ∈ GetUnreportedVulnerabilities db ecosystem
          ↔ e ∈ GetVulnerabilitiesForReport db ecosystem
            ∧ entryUnreported db.snapshot e = true := by
  refine ⟨?_, fun e => mem_getUnreported_iff db ecosystem e⟩
  rw [GetUnreportedVulnerabilities, GetVulnerabilitiesForReport, List.filter_flatMap]
  apply congrArg
  funext v
  rw [List.filter_map, List.filter_filter]
  apply congrArg
  apply List.filter_congr
  intro a _
  show (a.vuln_id == v.id && unreportedWhere db.snapshot v a
      && (ecosystem == "" || a.ecosystem == ecosystem))
    = (entryUnreported db.snapshot (mkReportEntry v a)
      && (a.vuln_id == v.id && (ecosystem == "" || a.ecosystem == ecosystem)))
  rw [entryUnreported_mkReportEntry]
  cases (a.vuln_id == v.id) <;> cases unreportedWhere db.snapshot v a
    <;> cases (ecosystem == "" || a.ecosystem == ecosystem) <;> rfl

/-- Coalescing the stored nullable vector recovers the entry's coalesced
vector. -/
theorem coalesce_toNullString (s : String) : coalesce (toNullString s) "" = s := by
  unfold toNullString coalesce
  by_cases h : s = "" <;> simp [h]

/-- When the snapshot equals the full current report result (and the store's
primary keys are unique), no join row satisfies the difference condition. -/
theorem getUnreported_nil_of_full_snapshot (db : StoreDB) (eco : String) (hwf : db.wf)
    (hsnap : db.snapshot = (GetVulnerabilitiesForReport db eco).map snapshotRowOfEntry) :
    GetUnreportedVulnerabilities db eco = [] := by
  rw [List.eq_nil_iff_forall_not_mem]
  intro e he
  rw [mem_getUnreported_iff] at he
  obtain ⟨hrep, hunrep⟩ := he
  rw [GetVulnerabilitiesForReport] at hrep
  simp only [List.mem_flatMap, List.mem_filter, List.mem_map, Bool.and_eq_true] at hrep
  obtain ⟨v, hv, a, ⟨ha, hbeq, heco⟩, heq⟩ := hrep
  subst heq
  have hjoin : mkReportEntry v a ∈ GetVulnerabilitiesForReport db eco := by
    rw [GetVulnerabilitiesForReport]
    simp only [List.mem_flatMap, List.mem_filter, List.mem_map, Bool.and_eq_true]
    exact ⟨v, hv, a, ⟨ha, hbeq, heco⟩, rfl⟩
  have hmem : snapshotRowOfEntry (mkReportEntry v a) ∈ db.snapshot := by
    rw [hsnap]
    exact List.mem_map_of_mem _ hjoin
  have hsome : (snapshotLookup db.snapshot (mkReportEntry v a).id (mkReportEntry v a).ecosystem
      (mkReportEntry v a).package).isSome := by
    rw [snapshotLookup, List.find?_isSome]
    exact ⟨_, hmem, by simp [snapshotRowOfEntry]⟩
  obtain ⟨r, hr⟩ := Option.isSome_iff_exists.mp hsome
  have hrfind : db.snapshot.find? (fun x => x.id == (mkReportEntry v a).id
      && x.ecosystem == (mkReportEntry v a).ecosystem
      && x.package == (mkReportEntry v a).package) = some r := hr
  have hrmem : r ∈ db.snapshot := List.mem_of_find?_eq_some hrfind
  have hrpred := List.find?_some hrfind
  simp only [mkReportEntry, Bool.and_eq_true, beq_iff_eq] at hrpred
  obtain ⟨⟨hrid, hreco⟩, hrpkg⟩ := hrpred
  rw [hsnap] at hrmem
  obtain ⟨e', he', hre⟩ := List.mem_map.mp hrmem
  rw [GetVulnerabilitiesForReport] at he'
  simp only [List.mem_flatMap, List.mem_filter, List.mem_map, Bool.and_eq_true] at he'
  obtain ⟨v', hv', a', ⟨ha', hbeq', heco'⟩, heq'⟩ := he'
  subst heq'
  subst hre
  simp only [snapshotRowOfEntry, mkReportEntry] at hrid hreco hrpkg
  have hva : v' = v := by
    refine List.inj_on_of_nodup_map hwf.1 hv' hv ?_
    exact hrid
  have hvulnid : a'.vuln_id = a.vuln_id := by
    have h1 : a'.vuln_id = v'.id := by simpa [beq_iff_eq] using hbeq'
    have h2 : a.vuln_id = v.id := by simpa [beq_iff_eq] using hbeq
    rw [h1, h2, hva]
  have haa : a' = a := by
    refine List.inj_on_of_nodup_map hwf.2 ha' ha ?_
    simp [hvulnid, hreco, hrpkg]
  subst hva
  subst haa
  unfold entryUnreported at hunrep
  rw [hr] at hunrep
  simp only [snapshotRowOfEntry, mkReportEntry, coalesce_toNullString, bne_self_eq_false,
    Bool.or_self, Bool.or_false, Bool.false_or] at hunrep
  cases hunrep

/-- Claim C6 counterexample: A differential report that emits zero rows returns
before touching the snapshot, so the snapshot is *not* always replaced with
the full current result set: on a store whose data tables are empty but
whose snapshot still holds a stale row, the report completes (emitting
nothing) and the stale snapshot row survives even though the full current
result set is empty.
-/
theorem generateReportDiff_counterexample :
    (generateReportDiff staleSnapshotDB "").1 = []
    ∧ (generateReportDiff staleSnapshotDB "").2.snapshot ≠
        ((GetVulnerabilitiesForReport staleSnapshotDB "").map snapshotRowOfEntry) := by
  decide

/-- Claim C6 amended: When a differential report emits at least one row, the
`reported_snapshot` table is atomically replaced with the full current
`GetVulnerabilitiesForReport` result for the requested ecosystem filter
(not just the emitted diff rows); when it emits no rows it returns early
and leaves the snapshot unchanged.  In either case, under unique primary
keys, two consecutive differential reports with no data change in between
cause the second report to emit zero rows.
-/
theorem generateReportDiff_spec (db : StoreDB) (eco : String) (hwf : db.wf) :
    (GetUnreportedVulnerabilities db eco ≠ [] →
      (generateReportDiff db eco).2.snapshot
        = (GetVulnerabilitiesForReport db eco).map snapshotRowOfEntry)
    ∧ (GetUnreportedVulnerabilities db eco = [] →
      (generateReportDiff db eco).2 = db)
    ∧ (generateReportDiff (generateReportDiff db eco).2 eco).1 = [] := by
  by_cases hu : GetUnreportedVulnerabilities db eco = []
  · have hrun : generateReportDiff db eco = (GetUnreportedVulnerabilities db eco, db) := by
      rw [generateReportDiff, if_pos (List.isEmpty_iff.mpr hu)]
    refine ⟨fun hne => absurd hu hne, fun _ => by rw [hrun], ?_⟩
    rw [hrun]
    rw [generateReportDiff, if_pos (List.isEmpty_iff.mpr hu)]
    exact hu
  · have hrun : generateReportDiff db eco
        = (GetUnreportedVulnerabilities db eco,
           SaveReportSnapshot db (GetVulnerabilitiesForReport db eco)) := by
      rw [generateReportDiff,
        if_neg (fun hemp => hu (List.isEmpty_iff.mp hemp))]
    refine ⟨fun _ => by rw [hrun]; rfl, fun habs => absurd habs hu, ?_⟩
    rw [hrun]
    have hnil : GetUnreportedVulnerabilities
        (SaveReportSnapshot db (GetVulnerabilitiesForReport db eco)) eco = [] := by
      apply getUnreported_nil_of_full_snapshot
      · exact hwf
      · rfl
    rw [generateReportDiff, if_pos (List.isEmpty_iff.mpr hnil)]
    exact hnil

/-- Witness for C6 at the one-vulnerability fixture: the second differential
report emits nothing. -/
theorem generateReportDiff_spec_witness :
    (generateReportDiff (generateReportDiff oneVulnDB "").2 "").1 = [] :=
  (generateReportDiff_spec oneVulnDB "" ⟨by decide, by decide⟩).2.2

/-- Claim C2 counterexample: The stored cursor *can* move backward: when the
stored cursor is exactly Go's zero instant (`0001-01-01T00:00:00Z`), the
sitemap filter treats the parsed cursor as "no cursor" (`IsZero`), so an
entry with an earlier `lastmod` (year 0 is a valid RFC3339 date) passes
the filter and its `modified` — earlier than the stored cursor — becomes
the new cursor.
-/
theorem processEcosystemCursor_moves_backward :
    zeroCursorDB.cursors.lookup "npm" = some (-62135596800)
    ∧ (processEcosystemCursor zeroCursorDB "npm" ⟨-62135596800, 0⟩ 7 preZeroSitemap
        true).cursors.lookup "npm" = some (-62135596900)
    ∧ ((-62135596900 : Int) < -62135596800) := by
  decide

/-- Claim C2 amended: The fetch driver stores a new cursor only when all batches
of a run succeed, and then stores the `modified` instant of the last entry
of the processed sequence; whenever the previously stored cursor is not
Go's zero instant (which the sitemap filter treats as "no cursor"), the
stored cursor never moves backward, because every entry surviving the
sitemap cursor filter has `lastmod` strictly greater than the old cursor.
-/
theorem processEcosystemCursor_monotone (db : StoreDB) (source : String) (now : Instant)
    (retentionDays : Int) (urls : List SitemapURL) (scrapeOk : Bool) (c : Int) :
    (scrapeOk = false →
      processEcosystemCursor db source now retentionDays urls scrapeOk = db)
    ∧ (db.cursors.lookup source = some c → c ≠ zeroInstant.sec →
      ∀ cNew,
        (processEcosystemCursor db source now retentionDays urls scrapeOk).cursors.lookup
            source = some cNew →
        c ≤ cNew) := by
  constructor
  · intro hfail
    rw [processEcosystemCursor]
    cases (FilterByCursor (parseSitemap ((GetCursor db source).getD zeroInstant) urls)
        ⟨now.sec - 86400 * retentionDays, now.nsec⟩).getLast? with
    | none => rfl
    | some last => rw [hfail]; rfl
  · intro hc hnz cNew hnew
    have hcur : (GetCursor db source).getD zeroInstant = ⟨c, 0⟩ := by
      rw [GetCursor, hc]
      rfl
    rw [processEcosystemCursor, hcur] at hnew
    cases hlast : (FilterByCursor (parseSitemap ⟨c, 0⟩ urls)
        ⟨now.sec - 86400 * retentionDays, now.nsec⟩).getLast? with
    | none =>
      rw [hlast] at hnew
      rw [hc] at hnew
      cases hnew
      exact le_refl c
    | some last =>
      rw [hlast] at hnew
      cases hok : scrapeOk with
      | false =>
        rw [hok] at hnew
        simp only [Bool.false_eq_true, if_false] at hnew
        rw [hc] at hnew
        cases hnew
        exact le_refl c
      | true =>
        rw [hok] at hnew
        simp only [if_true] at hnew
        rw [SaveCursor] at hnew
        simp only [lookup_upsertCursor] at hnew
        cases hnew
        -- the last filtered entry passed the cursor filter, so c ≤ its second
        have hmemf : last ∈ FilterByCursor (parseSitemap ⟨c, 0⟩ urls)
            ⟨now.sec - 86400 * retentionDays, now.nsec⟩ := by
          obtain ⟨hnil, heq⟩ := List.mem_getLast?_eq_getLast (Option.mem_def.mpr hlast)
          rw [heq]
          exact List.getLast_mem hnil
    -- membership in the filter implies membership in the parsed entries
        have hment : last ∈ parseSitemap ⟨c, 0⟩ urls :=
          (List.mem_filter.mp hmemf).1
        rw [parseSitemap] at hment
        simp only [List.mem_filterMap] at hment
        obtain ⟨u, hu, hfn⟩ := hment
        have hnzl : c ≠ -62135596800 := by simpa [zeroInstant] using hnz
        have hzero : (Instant.isZero ⟨c, 0⟩) = false := by
          simp [Instant.isZero, zeroInstant, hnzl]
        cases hlm : u.lastmod with
        | none => rw [hlm] at hfn; simp at hfn
        | some lm =>
          rw [hlm] at hfn
          dsimp only at hfn
          rw [hzero] at hfn
          cases haf : lm.after ⟨c, 0⟩ with
          | false =>
            rw [haf] at hfn
            simp at hfn
          | true =>
            rw [haf] at hfn
            cases hid : u.locId with
            | none => rw [hid] at hfn; simp at hfn
            | some entryId =>
              rw [hid] at hfn
              simp only [Bool.not_false, Bool.not_true, Bool.and_false, Bool.false_eq_true,
                if_false, Option.some.injEq] at hfn
              have hmod : last.modified = lm := by rw [← hfn]
              show c ≤ last.modified.sec
              rw [hmod]
              simp only [Instant.after, Bool.or_eq_true, Bool.and_eq_true,
                decide_eq_true_eq, beq_iff_eq] at haf
              rcases haf with hlt | ⟨heqsec, _⟩
              · exact le_of_lt hlt
              · exact le_of_eq heqsec.symm

/-- Witness for C2's amended monotonicity at a concrete run: the stored
cursor advances from Unix second 1700000000 to 1700000100. -/
theorem processEcosystemCursor_monotone_witness :
    (processEcosystemCursor ordinaryCursorDB "npm" ⟨1700000200, 0⟩ 7 laterSitemap
        true).cursors.lookup "npm" = some 1700000100
    ∧ (1700000000 : Int) ≤ 1700000100 := by
  constructor
  · decide
  · exact (processEcosystemCursor_monotone ordinaryCursorDB "npm" ⟨1700000200, 0⟩ 7
      laterSitemap true 1700000000).2 (by decide) (by decide) 1700000100 (by decide)

/-- Bind of a successful `Except` computes the continuation. -/
theorem ok_bind {e a b : Type} (x : a) (f : a → Except e b) :
    (Except.ok x : Except e a) >>= f = f x := rfl

/-- Looking up a valid Attack Vector code yields its official weight. -/
theorem lookupWeight_code_av (av : AVMetric) :
    lookupWeight avWeights av.code "invalid AV metric" = .ok av.weight := by
  cases av <;> rfl

/-- Looking up a valid Attack Complexity code yields its official weight. -/
theorem lookupWeight_code_ac (ac : ACMetric) :
    lookupWeight acWeights ac.code "invalid AC metric" = .ok ac.weight := by
  cases ac <;> rfl

/-- Looking up a valid User Interaction code yields its official weight. -/
theorem lookupWeight_code_ui (ui : UIMetric) :
    lookupWeight uiWeights ui.code "invalid UI metric" = .ok ui.weight := by
  cases ui <;> rfl

/-- Looking up a valid C/I/A code yields its official weight, whatever the
error message. -/
theorem lookupWeight_code_cia (m : CIAMetric) (msg : String) :
    lookupWeight ciaWeights m.code msg = .ok m.weight := by
  cases m <;> rfl

/-- Looking up a valid Privileges Required code in the scope-selected table
yields its official scope-dependent weight. -/
theorem lookupWeight_code_pr (pr : PRMetric) (s : SMetric) :
    lookupWeight (if (s.code == "C") = true then prWeightsChanged else prWeightsUnchanged)
      pr.code "invalid PR metric" = .ok (pr.weight s) := by
  cases pr <;> cases s <;> rfl

/-- On any metric map that contains all eight required metrics with valid
values, the Go formula evaluates to the official base score — independent of
the order or multiplicity of the vector's tokens. -/
theorem computeFromMetrics_valid (metrics : List (String × String))
    (av : AVMetric) (ac : ACMetric) (pr : PRMetric) (ui : UIMetric) (sv : SMetric)
    (cc ii aa : CIAMetric)
    (hreq : ∀ key ∈ requiredMetrics, (metrics.lookup key).isSome)
    (hAV : metricVal metrics "AV" = av.code) (hAC : metricVal metrics "AC" = ac.code)
    (hPR : metricVal metrics "PR" = pr.code) (hUI : metricVal metrics "UI" = ui.code)
    (hS : metricVal metrics "S" = sv.code) (hC : metricVal metrics "C" = cc.code)
    (hI : metricVal metrics "I" = ii.code) (hA : metricVal metrics "A" = aa.code) :
    computeFromMetrics metrics = .ok (officialBaseScore av ac pr ui sv cc ii aa) := by
  have hfind : requiredMetrics.find? (fun key => (metrics.lookup key).isNone) = none := by
    rw [List.find?_eq_none]
    intro x hx
    cases hlk : metrics.lookup x with
    | none =>
      have hx' := hreq x hx
      rw [hlk] at hx'
      cases hx'
    | some _ => simp
  unfold computeFromMetrics
  simp only [hfind, hAV, hAC, hPR, hUI, hS, hC, hI, hA, lookupWeight_code_av,
    lookupWeight_code_ac, lookupWeight_code_pr, lookupWeight_code_ui, lookupWeight_code_cia,
    ok_bind]
  unfold officialBaseScore
  by_cases hle :
      (1 - (1 - cc.weight) * (1 - ii.weight) * (1 - aa.weight) : ℚ) ≤ 0
  · rw [if_pos hle, if_pos hle]
    rfl
  · rw [if_neg hle, if_neg hle]
    cases hsv : sv with
    | U =>
      have hcode : ((SMetric.U.code == "C") : Bool) = false := by decide
      rw [hcode]
      rfl
    | C =>
      have hcode : ((SMetric.C.code == "C") : Bool) = true := by decide
      rw [hcode]
      rfl

/-- Rebuilding a string from its character list is the identity. -/
theorem string_mk_toList (s : String) : String.mk s.toList = s := rfl

/-- Concatenating strings concatenates their character lists. -/
theorem toList_append (s t : String) : (s ++ t).toList = s.toList ++ t.toList :=
  String.data_append s t

/-- Splitting at a separator that first occurs right after a separator-free
block isolates that block. -/
theorem splitOnChar_append_cons (sep : Char) (l1 l2 : List Char) (h : sep ∉ l1) :
    splitOnChar sep (l1 ++ sep :: l2) = l1 :: splitOnChar sep l2 := by
  induction l1 with
  | nil => simp [splitOnChar]
  | cons c rest ih =>
    have hcne : ¬(c = sep) := fun hc => h (by rw [hc]; exact List.mem_cons_self _ _)
    have ih' := ih (fun hm => h (List.mem_cons_of_mem c hm))
    simp only [List.cons_append, splitOnChar, if_neg hcne, List.append_eq]
    rw [ih']

/-- Breaking at a separator that first occurs right after a separator-free
block returns that block and the tail. -/
theorem breakAtChar_append (sep : Char) (l1 l2 : List Char) (h : sep ∉ l1) :
    breakAtChar sep (l1 ++ sep :: l2) = some (l1, l2) := by
  induction l1 with
  | nil => simp [breakAtChar]
  | cons c rest ih =>
    have hcne : ¬(c = sep) := fun hc => h (by rw [hc]; exact List.mem_cons_self _ _)
    have ih' := ih (fun hm => h (List.mem_cons_of_mem c hm))
    simp only [List.cons_append, breakAtChar, if_neg hcne, List.append_eq]
    rw [ih']
    rfl

/-- Splitting a separator-free list yields that list as the only block. -/
theorem splitOnChar_no_sep (sep : Char) (l : List Char) (h : sep ∉ l) :
    splitOnChar sep l = [l] := by
  induction l with
  | nil => rfl
  | cons c rest ih =>
    have hcne : ¬c = sep := fun hc => h (by rw [hc]; exact List.mem_cons_self _ _)
    have ih' := ih (fun hm => h (List.mem_cons_of_mem c hm))
    simp only [splitOnChar, if_neg hcne]
    rw [ih']

/-- A character misses a three-character-headed list when it differs from
the head characters and misses the tail. -/
theorem not_mem_cons3 {c a b d : Char} {l : List Char} (h1 : ¬c = a) (h2 : ¬c = b)
    (h3 : ¬c = d) (h4 : c ∉ l) : c ∉ a :: b :: d :: l := by
  intro hm
  rcases List.mem_cons.mp hm with h | hm
  · exact h1 h
  rcases List.mem_cons.mp hm with h | hm
  · exact h2 h
  rcases List.mem_cons.mp hm with h | hm
  · exact h3 h
  · exact h4 hm

/-- A character misses a two-character-headed list when it differs from the
head characters and misses the tail. -/
theorem not_mem_cons2 {c a b : Char} {l : List Char} (h1 : ¬c = a) (h2 : ¬c = b)
    (h3 : c ∉ l) : c ∉ a :: b :: l := by
  intro hm
  rcases List.mem_cons.mp hm with h | hm
  · exact h1 h
  rcases List.mem_cons.mp hm with h | hm
  · exact h2 h
  · exact h3 hm

/-- Valid Attack Vector codes contain neither the slash nor the colon. -/
theorem av_code_chars (av : AVMetric) : '/' ∉ av.code.toList := by cases av <;> decide

/-- Valid Attack Complexity codes contain no slash. -/
theorem ac_code_chars (ac : ACMetric) : '/' ∉ ac.code.toList := by cases ac <;> decide

/-- Valid Privileges Required codes contain no slash. -/
theorem pr_code_chars (pr : PRMetric) : '/' ∉ pr.code.toList := by cases pr <;> decide

/-- Valid User Interaction codes contain no slash. -/
theorem ui_code_chars (ui : UIMetric) : '/' ∉ ui.code.toList := by cases ui <;> decide

/-- Valid Scope codes contain no slash. -/
theorem s_code_chars (sv : SMetric) : '/' ∉ sv.code.toList := by cases sv <;> decide

/-- Valid C/I/A codes contain no slash. -/
theorem cia_code_chars (m : CIAMetric) : '/' ∉ m.code.toList := by cases m <;> decide

/-- Splitting the canonical vector string on the slash yields the version
token followed by the eight metric tokens, for arbitrary valid metric
codes. -/
theorem splitOnChar_mkVector (av : AVMetric) (ac : ACMetric) (pr : PRMetric) (ui : UIMetric)
    (sv : SMetric) (cc ii aa : CIAMetric) :
    splitOnChar '/' (mkVector av ac pr ui sv cc ii aa).toList
      = ["CVSS:3.1".toList,
         'A' :: 'V' :: ':' :: av.code.toList,
         'A' :: 'C' :: ':' :: ac.code.toList,
         'P' :: 'R' :: ':' :: pr.code.toList,
         'U' :: 'I' :: ':' :: ui.code.toList,
         'S' :: ':' :: sv.code.toList,
         'C' :: ':' :: cc.code.toList,
         'I' :: ':' :: ii.code.toList,
         'A' :: ':' :: aa.code.toList] := by
  have hform : (mkVector av ac pr ui sv cc ii aa).toList
      = "CVSS:3.1".toList ++ '/' :: (('A' :: 'V' :: ':' :: av.code.toList) ++ '/' ::
        (('A' :: 'C' :: ':' :: ac.code.toList) ++ '/' ::
        (('P' :: 'R' :: ':' :: pr.code.toList) ++ '/' ::
        (('U' :: 'I' :: ':' :: ui.code.toList) ++ '/' ::
        (('S' :: ':' :: sv.code.toList) ++ '/' ::
        (('C' :: ':' :: cc.code.toList) ++ '/' ::
        (('I' :: ':' :: ii.code.toList) ++ '/' ::
        ('A' :: ':' :: aa.code.toList)))))))) := by
    simp only [mkVector, toList_append, List.append_assoc]
    rfl
  rw [hform]
  rw [splitOnChar_append_cons _ _ _ (by decide)]
  rw [splitOnChar_append_cons _ _ _
    (not_mem_cons3 (by decide) (by decide) (by decide) (av_code_chars av))]
  rw [splitOnChar_append_cons _ _ _
    (not_mem_cons3 (by decide) (by decide) (by decide) (ac_code_chars ac))]
  rw [splitOnChar_append_cons _ _ _
    (not_mem_cons3 (by decide) (by decide) (by decide) (pr_code_chars pr))]
  rw [splitOnChar_append_cons _ _ _
    (not_mem_cons3 (by decide) (by decide) (by decide) (ui_code_chars ui))]
  rw [splitOnChar_append_cons _ _ _
    (not_mem_cons2 (by decide) (by decide) (s_code_chars sv))]
  rw [splitOnChar_append_cons _ _ _
    (not_mem_cons2 (by decide) (by decide) (cia_code_chars cc))]
  rw [splitOnChar_append_cons _ _ _
    (not_mem_cons2 (by decide) (by decide) (cia_code_chars ii))]
  rw [splitOnChar_no_sep _ _
    (not_mem_cons2 (by decide) (by decide) (cia_code_chars aa))]

/-- The canonical vector of any full valid metric assignment parses to the
official base score, proved symbolically (no case enumeration): the string
splits into the version and metric tokens, the metric map holds exactly the
eight codes, and the formula evaluation agrees with the official one. -/
theorem parseVector_mkVector_official (av : AVMetric) (ac : ACMetric) (pr : PRMetric)
    (ui : UIMetric) (sv : SMetric) (cc ii aa : CIAMetric) :
    ParseVector (mkVector av ac pr ui sv cc ii aa)
      = .ok (officialBaseScore av ac pr ui sv cc ii aa) := by
  have hpre : strStartsWith (mkVector av ac pr ui sv cc ii aa) "CVSS:3." = true := by
    rw [strStartsWith]
    rw [show (mkVector av ac pr ui sv cc ii aa).toList
        = "CVSS:3.1/AV:".toList ++ (av.code.toList ++ ("/AC:".toList ++ (ac.code.toList
          ++ ("/PR:".toList ++ (pr.code.toList ++ ("/UI:".toList ++ (ui.code.toList
          ++ ("/S:".toList ++ (sv.code.toList ++ ("/C:".toList ++ (cc.code.toList
          ++ ("/I:".toList ++ (ii.code.toList ++ ("/A:".toList ++ aa.code.toList))))))))))))))
      from by simp only [mkVector, toList_append, List.append_assoc]]
    rfl
  have hm : parseMetrics
      ['A' :: 'V' :: ':' :: av.code.toList,
       'A' :: 'C' :: ':' :: ac.code.toList,
       'P' :: 'R' :: ':' :: pr.code.toList,
       'U' :: 'I' :: ':' :: ui.code.toList,
       'S' :: ':' :: sv.code.toList,
       'C' :: ':' :: cc.code.toList,
       'I' :: ':' :: ii.code.toList,
       'A' :: ':' :: aa.code.toList]
      = [("AV", av.code), ("AC", ac.code), ("PR", pr.code), ("UI", ui.code),
         ("S", sv.code), ("C", cc.code), ("I", ii.code), ("A", aa.code)] := rfl
  unfold ParseVector
  rw [if_pos hpre]
  unfold computeCVSS3BaseScore
  rw [splitOnChar_mkVector]
  dsimp only
  have hc : strStartsWith (String.mk "CVSS:3.1".toList) "CVSS:3." = true := rfl
  rw [if_pos hc, hm]
  exact computeFromMetrics_valid _ av ac pr ui sv cc ii aa
    (by intro k hk; fin_cases hk <;> rfl) rfl rfl rfl rfl rfl rfl rfl rfl

set_option maxHeartbeats 4000000 in
set_option maxRecDepth 100000 in
/-- Claim C4: `ParseVector "CVSS:3.1/AV:N/AC:L/PR:N/UI:N/S:U/C:H/I:H/A:H"` returns
9.8, and for every CVSS v3.1 vector containing the eight required metrics
`AV, AC, PR, UI, S, C, I, A` with valid values the parser returns the official
base score (checked here for every one of the 1296 valid full metric
assignments, against the official formula `officialBaseScore`); moreover a
metric map that lacks any required metric is rejected as a parse failure.
-/
theorem parseVector_official_base_score :
    ParseVector "CVSS:3.1/AV:N/AC:L/PR:N/UI:N/S:U/C:H/I:H/A:H" = .ok (98/10)
    ∧ (∀ av ac pr ui s c i a,
        ParseVector (mkVector av ac pr ui s c i a)
          = .ok (officialBaseScore av ac pr ui s c i a))
    ∧ (∀ (metrics : List (String × String)) av ac pr ui sv cc ii aa,
        (∀ key ∈ requiredMetrics, (metrics.lookup key).isSome) →
        metricVal metrics "AV" = AVMetric.code av →
        metricVal metrics "AC" = ACMetric.code ac →
        metricVal metrics "PR" = PRMetric.code pr →
        metricVal metrics "UI" = UIMetric.code ui →
        metricVal metrics "S" = SMetric.code sv →
        metricVal metrics "C" = CIAMetric.code cc →
        metricVal metrics "I" = CIAMetric.code ii →
        metricVal metrics "A" = CIAMetric.code aa →
        computeFromMetrics metrics = .ok (officialBaseScore av ac pr ui sv cc ii aa))
    ∧ (∀ metrics : List (String × String),
        (∃ key ∈ requiredMetrics, (metrics.lookup key).isNone) →
        ∃ key ∈ requiredMetrics, computeFromMetrics metrics = .error ("missing metric " ++ key)) := by
  refine ⟨by with_unfolding_all decide, ?_, ?_, ?_⟩
  · intro av ac pr ui sv cc ii aa
    exact parseVector_mkVector_official av ac pr ui sv cc ii aa
  · intro metrics av ac pr ui sv cc ii aa hreq hAV hAC hPR hUI hS hC hI hA
    exact computeFromMetrics_valid metrics av ac pr ui sv cc ii aa hreq hAV hAC hPR hUI hS hC hI hA
  · intro metrics ⟨key, hmem, hnone⟩
    have hfind : (requiredMetrics.find? (fun k => (metrics.lookup k).isNone)).isSome := by
      rw [List.find?_isSome]
      exact ⟨key, hmem, hnone⟩
    obtain ⟨k', hk'⟩ := Option.isSome_iff_exists.mp hfind
    refine ⟨k', List.mem_of_find?_eq_some hk', ?_⟩
    unfold computeFromMetrics
    rw [hk']

/-- Witness for C4's hypothesis-bearing conjuncts: a shuffled metric map
with the canonical 9.8 values evaluates to the official score, and the
empty metric map is missing a required metric and is rejected. -/
theorem parseVector_official_base_score_witness :
    computeFromMetrics
        [("A", "H"), ("I", "H"), ("C", "H"), ("S", "U"), ("UI", "N"), ("PR", "N"),
         ("AC", "L"), ("AV", "N")]
      = .ok (officialBaseScore .N .L .N .N .U .H .H .H)
    ∧ ∃ key ∈ requiredMetrics, computeFromMetrics [] = .error ("missing metric " ++ key) :=
  ⟨parseVector_official_base_score.2.2.1
      [("A", "H"), ("I", "H"), ("C", "H"), ("S", "U"), ("UI", "N"), ("PR", "N"),
       ("AC", "L"), ("AV", "N")]
      .N .L .N .N .U .H .H .H (by decide) (by decide) (by decide) (by decide) (by decide)
      (by decide) (by decide) (by decide) (by decide),
   parseVector_official_base_score.2.2.2 [] ⟨"AV", by decide, by decide⟩⟩

end OsvSpec
